import Mathlib

/-!
Shallow embedding of the go-auth-service core: the multi-tenant
authentication service (`server/internal/service/multi_tenant_auth_service.go`),
the permission service (`server/internal/service/permission_service.go`),
the repositories it calls
(`internal/repository/refresh_token_repository.go`,
 `internal/repository/role_repository.go`,
 `server/internal/repository/tenant_repository.go`,
 the user repository, the tenant-login-config repository),
and the gateway front-half
(`server/cmd/gateway/main.go`, `server/internal/gateway/middleware.go`).

MongoDB collections are modelled as in-memory lists of rows; `time.Now()`
is modelled by an explicit `now : Nat` (seconds); the Redis session store
is a list of `(key, value, ttlSeconds)` triples; external go-shared calls
(bcrypt check, random token generation, JWT signing) are environment-provided
values or functions.  Fallible external effects the claims depend on
(Redis `Set`, refresh-row insert) are boolean success knobs in the
environment, mirroring the `if err != nil` branches of the source.
-/

namespace AuthSvc

/-- Embeds `domain.User` (`internal/domain` / `server/internal/domain/models.go`):
the fields read by the authentication paths. -/
structure User where
  id : String
  email : String
  username : String
  phone : String
  docNumber : String
  passwordHash : String
  isActive : Bool
deriving Repr, DecidableEq

/-- Embeds `domain.UserTenant` (`server/internal/domain/multi_tenant.go`). -/
structure UserTenant where
  userID : String
  tenantID : String
  roles : List String
  isActive : Bool
deriving Repr, DecidableEq

/-- Embeds `domain.TenantLoginConfig` (`server/internal/domain/multi_tenant.go`):
the fields the service reads. `sessionTimeout` and `lockoutDuration` are in
minutes, as in the Go struct comments. -/
structure TenantLoginConfig where
  tenantID : String
  allowedIdentifiers : List String
  allowRegistration : Bool
  passwordMinLength : Nat
  sessionTimeout : Nat
  maxLoginAttempts : Nat
  lockoutDuration : Nat
deriving Repr, DecidableEq

/-- Embeds `domain.RefreshToken` row (`internal/domain/models.go`):
`revokedAt = none` models the BSON `revoked_at: nil`. -/
structure RefreshTokenRec where
  userID : String
  tenantID : String
  token : String
  expiresAt : Nat
  revokedAt : Option Nat
deriving Repr, DecidableEq

/-- Embeds `domain.Session` (the blob stored in Redis under `session:<token>`). -/
structure Session where
  userID : String
  tenantID : String
  email : String
  roles : List String
  createdAt : Nat
  expiresAt : Nat
deriving Repr, DecidableEq

/-- Embeds `domain.Role` (`internal/domain`): `tenantID = none` models a role row
without a `tenant_id` field (a system-wide role). -/
structure Role where
  name : String
  tenantID : Option String
  permissions : List String
deriving Repr, DecidableEq

/-- Embeds `domain.UserLockout` (`server/internal/domain/multi_tenant.go`). -/
structure UserLockout where
  userID : String
  tenantID : String
  lockedAt : Nat
  unlockAt : Nat
  reason : String
  isActive : Bool
deriving Repr, DecidableEq

/-- The error values produced via the go-shared `errors` package:
`errors.Unauthorized`, `errors.Forbidden`, `errors.Internal`,
`errors.Conflict`, `errors.BadRequest`, each carrying its message. -/
inductive AppError where
  | unauthorized (msg : String)
  | forbidden (msg : String)
  | internal (msg : String)
  | conflict (msg : String)
  | badRequest (msg : String)
deriving Repr, DecidableEq

/-- Embeds `domain.LoginResponse` (flattened `UserInfo`). -/
structure LoginResponse where
  accessToken : String
  refreshToken : String
  tokenType : String
  expiresIn : Nat
  userID : String
  userEmail : String
  userTenantID : String
  userRoles : List String
deriving Repr, DecidableEq

/-- Embeds `domain.ValidateTokenResponse` (the claims returned by `VerifyToken`). -/
structure ValidateTokenResponse where
  valid : Bool
  userID : String
  tenantID : String
  email : String
  roles : List String
  permissions : List String
deriving Repr, DecidableEq

/-- The persistent + session-store state the service operates on.
`sessions` models the Redis keyspace: `(key, blob, ttlSeconds)`;
lookups take the first entry with a matching key, so prepending models
an overwriting `SET`.  `lockouts` models the `user_lockouts` collection
declared in `server/internal/domain/multi_tenant.go`; no code in the
service reads or writes it. -/
structure Store where
  users : List User
  userTenants : List UserTenant
  configs : List TenantLoginConfig
  roles : List Role
  refreshTokens : List RefreshTokenRec
  sessions : List (String × Session × Nat)
  lockouts : List UserLockout
deriving Repr, DecidableEq

/-- Environment of a request: the clock, the outcomes of the external
go-shared calls, and the availability/outcome knobs for the two stores.
`freshAccessToken = none` models `utils.GenerateRandomString` failing;
`freshRefreshToken = none` models `jwtManager.GenerateToken` failing;
`redisSetOk = false` models the Redis `Set` returning an error;
`refreshCreateOk = false` models `refreshTokenRepo.Create` returning an
error.  `checkPassword pw hash` models `utils.CheckPassword`. -/
structure Env where
  now : Nat
  checkPassword : String → String → Bool
  freshAccessToken : Option String
  freshRefreshToken : Option String
  redisAvailable : Bool
  redisSetOk : Bool
  refreshCreateOk : Bool

/-- Embeds `UserRepository.FindByIdentifier`
(`server/internal/gateway/cache.go:109`): Mongo `$or` over the four
identifier fields; the first matching row. -/
def findByIdentifier (users : List User) (identifier : String) : Option User :=
  users.find? fun u =>
    u.email == identifier || u.username == identifier ||
    u.phone == identifier || u.docNumber == identifier

/-- Embeds `UserRepository.FindByID`. -/
def findUserByID (users : List User) (id : String) : Option User :=
  users.find? fun u => u.id == id

/-- Embeds `UserTenantRepository.FindByUserAndTenant`
(`server/internal/repository/tenant_repository.go:162`). -/
def findByUserAndTenant (rows : List UserTenant) (userID tenantID : String) :
    Option UserTenant :=
  rows.find? fun r => r.userID == userID && r.tenantID == tenantID

/-- Embeds `TenantLoginConfigRepository.GetDefaultConfig` (tenant-login-config
repository): the sentinel returned when no row exists. -/
def getDefaultConfig (tenantID : String) : TenantLoginConfig :=
  { tenantID := tenantID
    allowedIdentifiers := ["email", "username"]
    allowRegistration := true
    passwordMinLength := 8
    sessionTimeout := 1440
    maxLoginAttempts := 5
    lockoutDuration := 30 }

/-- Embeds `TenantLoginConfigRepository.FindByTenant`: the stored row, or the
default config when `mongo.ErrNoDocuments`. -/
def findConfigByTenant (configs : List TenantLoginConfig) (tenantID : String) :
    TenantLoginConfig :=
  match configs.find? (fun c => c.tenantID == tenantID) with
  | some c => c
  | none => getDefaultConfig tenantID

/-- Embeds `RefreshTokenRepository.FindByToken`
(`internal/repository/refresh_token_repository.go:61`): the Mongo filter is
`token = t AND revoked_at = nil AND expires_at > now`. -/
def findRefreshByToken (rows : List RefreshTokenRec) (token : String) (now : Nat) :
    Option RefreshTokenRec :=
  rows.find? fun r => r.token == token && r.revokedAt == none && decide (now < r.expiresAt)

/-- Embeds `RoleRepository.FindByNames`
(`internal/repository/role_repository.go:43`): roles whose name is in
`names` and whose `tenant_id` equals `tenantID` or is unset. -/
def findRolesByNames (roles : List Role) (names : List String) (tenantID : String) :
    List Role :=
  roles.filter fun r =>
    names.contains r.name && (r.tenantID == some tenantID || r.tenantID == none)

/-- First-occurrence de-duplication with an explicit seen-list; the loop
body of `removeDuplicates` (`server/internal/service/permission_service.go:264`)
and the observable content of the `map[string]bool` accumulation in
`RoleRepository.GetPermissionsForRoles`. -/
def dedupAcc (seen : List String) : List String → List String
  | [] => []
  | x :: xs => if seen.contains x then dedupAcc seen xs else x :: dedupAcc (x :: seen) xs

/-- Embeds `removeDuplicates` (`server/internal/service/permission_service.go:264`). -/
def removeDuplicates (l : List String) : List String := dedupAcc [] l

/-- Embeds `RoleRepository.GetPermissionsForRoles`
(`internal/repository/role_repository.go:67`): union of the permissions of
the matched roles, de-duplicated via a `map[string]bool`.  Go iterates the
map in unspecified order; the first-occurrence order is one linearisation
of the same set, which is all the claims observe. -/
def getPermissionsForRoles (roles : List Role) (names : List String) (tenantID : String) :
    List String :=
  removeDuplicates ((findRolesByNames roles names tenantID).flatMap Role.permissions)

/-- Embeds `domain.DetectIdentifierType`
(`server/internal/domain/multi_tenant.go:74`): the Go function returns
`""` when nothing matches, modelled by `none`. -/
def detectIdentifierType (identifier : String) (u : User) : Option String :=
  if u.email == identifier then some "email"
  else if u.username == identifier then some "username"
  else if u.phone == identifier then some "phone"
  else if u.docNumber == identifier then some "document_number"
  else none

/-- Redis `Get` on the session keyspace: first entry under the key. -/
def getSession (sessions : List (String × Session × Nat)) (key : String) :
    Option (Session × Nat) :=
  (sessions.find? fun e => e.1 == key).map (·.2)

/-- Redis `Delete` on the session keyspace. -/
def deleteSession (sessions : List (String × Session × Nat)) (key : String) :
    List (String × Session × Nat) :=
  sessions.filter fun e => !(e.1 == key)

/-- Embeds `MultiTenantAuthService.generateTokens`
(`server/internal/service/multi_tenant_auth_service.go:383`): generate the
opaque access token, build the session with `ExpiresAt = now + 24h`, store
it in Redis with TTL `24*time.Hour` (fatal on error), generate the JWT
refresh token, insert the refresh row with `ExpiresAt = now + 7*24h`
(logged, non-fatal on error), and return the `LoginResponse` with
`ExpiresIn = 86400`. -/
def generateTokens (env : Env) (st : Store) (user : User) (tenantID : String)
    (roles permissions : List String) : Except AppError (LoginResponse × Store) := do
  let accessToken ← match env.freshAccessToken with
    | some t => Except.ok t
    | none => Except.error (AppError.internal "Failed to generate access token")
  let session : Session :=
    { userID := user.id, tenantID := tenantID, email := user.email, roles := roles
      createdAt := env.now, expiresAt := env.now + 24 * 3600 }
  let st ←
    if env.redisAvailable then
      if env.redisSetOk then
        Except.ok { st with
          sessions := ("session:" ++ accessToken, session, 24 * 3600) :: st.sessions }
      else
        Except.error (AppError.internal "Failed to create session")
    else
      Except.ok st
  let refreshTokenStr ← match env.freshRefreshToken with
    | some t => Except.ok t
    | none => Except.error (AppError.internal "Failed to generate refresh token")
  let refreshRow : RefreshTokenRec :=
    { userID := user.id, token := refreshTokenStr, tenantID := tenantID
      expiresAt := env.now + 7 * 24 * 3600, revokedAt := none }
  let st :=
    if env.refreshCreateOk then
      { st with refreshTokens := refreshRow :: st.refreshTokens }
    else
      st
  Except.ok
    ({ accessToken := accessToken, refreshToken := refreshTokenStr
       tokenType := "Bearer", expiresIn := 86400
       userID := user.id, userEmail := user.email
       userTenantID := tenantID, userRoles := roles }, st)

/- The `permissions` argument of `generateTokens` is deliberately unused:
in the Go code it is only passed to `jwtManager.GenerateToken` (an external
signing call) and does not affect the session, the stores, or the
response; the parameter is kept to mirror the signature. -/

/-- Embeds `MultiTenantAuthService.Login`
(`server/internal/service/multi_tenant_auth_service.go:152`): load tenant
config, find the user by identifier, detect and gate the identifier type,
check the membership, check `user.IsActive`, check the password, resolve
permissions, and issue tokens.  The `// TODO: Track failed login attempts`
branch of the source is the bare `Unauthorized` error: no attempt is
recorded and no lockout is consulted or created. -/
def login (env : Env) (st : Store) (identifier password tenantID : String) :
    Except AppError (LoginResponse × Store) := do
  let loginConfig := findConfigByTenant st.configs tenantID
  let user ← match findByIdentifier st.users identifier with
    | some u => Except.ok u
    | none => Except.error (AppError.unauthorized "Invalid credentials")
  let identifierType ← match detectIdentifierType identifier user with
    | some t => Except.ok t
    | none => Except.error (AppError.unauthorized "Invalid credentials")
  if !(loginConfig.allowedIdentifiers.contains identifierType) then
    Except.error (AppError.forbidden
      ("Login with " ++ identifierType ++ " is not allowed for this tenant"))
  else do
    let userTenant ← match findByUserAndTenant st.userTenants user.id tenantID with
      | some ut => Except.ok ut
      | none => Except.error (AppError.forbidden "User does not have access to this tenant")
    if !userTenant.isActive then
      Except.error (AppError.forbidden "User access to this tenant is deactivated")
    else if !user.isActive then
      Except.error (AppError.forbidden "User account is deactivated")
    else if !(env.checkPassword password user.passwordHash) then
      Except.error (AppError.unauthorized "Invalid credentials")
    else
      let roles := userTenant.roles
      let permissions := getPermissionsForRoles st.roles roles tenantID
      generateTokens env st user tenantID roles permissions

/-- Embeds `MultiTenantAuthService.VerifyToken`
(`server/internal/service/multi_tenant_auth_service.go:235`): session
lookup, expiry check (purging an expired session), then the re-checks of
the user row and the membership row, then permission resolution.  Returns
the outcome together with the (possibly purged) session keyspace. -/
def verifyToken (env : Env) (st : Store) (token : String) :
    Except AppError ValidateTokenResponse × Store :=
  if !env.redisAvailable then
    (Except.error (AppError.internal "Session store not available"), st)
  else
    match getSession st.sessions ("session:" ++ token) with
    | none => (Except.error (AppError.unauthorized "Invalid or expired token"), st)
    | some (session, _) =>
      if session.expiresAt < env.now then
        (Except.error (AppError.unauthorized "Token expired"),
         { st with sessions := deleteSession st.sessions ("session:" ++ token) })
      else
        match findUserByID st.users session.userID with
        | none => (Except.error (AppError.unauthorized "User not found"), st)
        | some user =>
          if !user.isActive then
            (Except.error (AppError.forbidden "User account is deactivated"), st)
          else
            match findByUserAndTenant st.userTenants session.userID session.tenantID with
            | none =>
              (Except.error (AppError.forbidden "User does not have access to this tenant"), st)
            | some userTenant =>
              if !userTenant.isActive then
                (Except.error
                  (AppError.forbidden "User does not have access to this tenant"), st)
              else
                (Except.ok
                  { valid := true, userID := session.userID, tenantID := session.tenantID
                    email := session.email, roles := session.roles
                    permissions :=
                      getPermissionsForRoles st.roles session.roles session.tenantID }, st)

/-- Embeds `MultiTenantAuthService.RefreshToken`
(`server/internal/service/multi_tenant_auth_service.go:337`): find the
refresh row (the repository filter already excludes revoked and expired
rows), re-check `RevokedAt` and expiry, load the user and the membership,
resolve permissions, and call `generateTokens`.  No call revokes the
presented token. -/
def refreshTokenOp (env : Env) (st : Store) (refreshTokenStr : String) :
    Except AppError (LoginResponse × Store) := do
  let refreshTok ← match findRefreshByToken st.refreshTokens refreshTokenStr env.now with
    | some r => Except.ok r
    | none => Except.error (AppError.unauthorized "Invalid refresh token")
  if refreshTok.expiresAt < env.now then
    Except.error (AppError.unauthorized "Refresh token expired")
  else do
    let user ← match findUserByID st.users refreshTok.userID with
      | some u => Except.ok u
      | none => Except.error (AppError.unauthorized "User not found")
    let userTenant ← match findByUserAndTenant st.userTenants refreshTok.userID refreshTok.tenantID with
      | some ut => Except.ok ut
      | none => Except.error (AppError.forbidden "User does not have access to this tenant")
    if !userTenant.isActive then
      Except.error (AppError.forbidden "User does not have access to this tenant")
    else
      let permissions := getPermissionsForRoles st.roles userTenant.roles refreshTok.tenantID
      generateTokens env st user refreshTok.tenantID userTenant.roles permissions

/-- Embeds `UserTenantRepository.UpdateRoles`
(`server/internal/repository/tenant_repository.go:215`): `UpdateOne` with
`$set: {roles}` on the first row matching (userId, tenantId); error when
`MatchedCount == 0`.  The unique index on (userId, tenantId) keeps at most
one matching row. -/
def updateRolesRows (userID tenantID : String) (roles : List String) :
    List UserTenant → List UserTenant
  | [] => []
  | r :: rs =>
    if r.userID == userID && r.tenantID == tenantID then
      { r with roles := roles } :: rs
    else
      r :: updateRolesRows userID tenantID roles rs

/-- Embeds `UserTenantRepository.UpdateRoles`, service-visible result. -/
def updateRoles (rows : List UserTenant) (userID tenantID : String)
    (roles : List String) : Except AppError (List UserTenant) :=
  if (findByUserAndTenant rows userID tenantID).isSome then
    Except.ok (updateRolesRows userID tenantID roles rows)
  else
    Except.error (AppError.internal "user-tenant relationship not found")

/-- Embeds `UserTenantRepository.Create`
(`server/internal/repository/tenant_repository.go:146`): `InsertOne`, with
`IsActive` forced to `true` by the repository. -/
def createUserTenant (rows : List UserTenant) (userID tenantID : String)
    (roles : List String) : List UserTenant :=
  rows ++ [{ userID := userID, tenantID := tenantID, roles := roles, isActive := true }]

/-- Embeds `MultiTenantAuthService.AddUserToTenant`
(`server/internal/service/multi_tenant_auth_service.go:308`): if a row for
(user, tenant) exists, `UpdateRoles`; otherwise `Create` a fresh active
row. -/
def addUserToTenant (rows : List UserTenant) (userID tenantID : String)
    (roles : List String) : Except AppError (List UserTenant) :=
  match findByUserAndTenant rows userID tenantID with
  | some _ => updateRoles rows userID tenantID roles
  | none => Except.ok (createUserTenant rows userID tenantID roles)

/-! ## Permission service (`server/internal/service/permission_service.go`) -/

/-- The permission-service state: the membership and role collections plus
the cache.  `cache = none` models a nil cache client; entries are
`(key, value)` pairs, first match wins, so prepending models an
overwriting `Set`. -/
structure PermStore where
  userTenants : List UserTenant
  roles : List Role
  cache : Option (List (String × List String))
deriving Repr, DecidableEq

/-- Cache `Get`: `some v` when the cache client exists and holds the key
(`err == nil` in Go), `none` otherwise. -/
def cacheGet (cache : Option (List (String × List String))) (key : String) :
    Option (List String) :=
  match cache with
  | none => none
  | some entries => (entries.find? fun e => e.1 == key).map (·.2)

/-- Cache `Set` (no-op on a nil cache client). -/
def cacheSet (cache : Option (List (String × List String))) (key : String)
    (val : List String) : Option (List (String × List String)) :=
  match cache with
  | none => none
  | some entries => some ((key, val) :: entries)

/-- The cache key `permissions:{user}:{tenant}`. -/
def permCacheKey (userID tenantID : String) : String :=
  "permissions:" ++ userID ++ ":" ++ tenantID

/-- The database path of `PermissionService.GetUserPermissions`
(`server/internal/service/permission_service.go:58`, the code after the
cache check): empty set when the membership is missing or inactive,
otherwise `GetPermissionsForRoles` followed by `removeDuplicates`. -/
def permsFromDB (st : PermStore) (userID tenantID : String) : List String :=
  match findByUserAndTenant st.userTenants userID tenantID with
  | none => []
  | some userTenant =>
    if !userTenant.isActive then []
    else removeDuplicates (getPermissionsForRoles st.roles userTenant.roles tenantID)

/-- Embeds `PermissionService.GetUserPermissions`
(`server/internal/service/permission_service.go:43`): return the cached
value only when the `Get` succeeded AND the value is non-empty
(`err == nil && len(cachedPermissions) > 0`); otherwise compute from the
stores and cache the result.  The inactive/missing-membership branch
returns `[]` with a `nil` error in Go and does not reach the cache write.
Returns the permissions together with the updated cache. -/
def getUserPermissions (st : PermStore) (userID tenantID : String) :
    List String × Option (List (String × List String)) :=
  let key := permCacheKey userID tenantID
  let hit : Option (List String) :=
    match cacheGet st.cache key with
    | some cached => if cached.length > 0 then some cached else none
    | none => none
  match hit with
  | some cached => (cached, st.cache)
  | none =>
    match findByUserAndTenant st.userTenants userID tenantID with
    | none => ([], st.cache)
    | some userTenant =>
      if !userTenant.isActive then ([], st.cache)
      else
        let permissions :=
          removeDuplicates (getPermissionsForRoles st.roles userTenant.roles tenantID)
        (permissions, cacheSet st.cache key permissions)

/-! ## Gateway front-half (`server/cmd/gateway/main.go`,
`server/internal/gateway/middleware.go`) -/

/-- Embeds `gateway.ValidateTokenResponse` (`server/internal/gateway/middleware.go:22`). -/
structure GwClaims where
  valid : Bool
  userID : String
  tenantID : String
  email : String
deriving Repr, DecidableEq

/-- Embeds `strings.Contains` on the character lists of the two strings. -/
def listContainsSub (sub : List Char) : List Char → Bool
  | [] => sub.isEmpty
  | c :: cs => sub.isPrefixOf (c :: cs) || listContainsSub sub cs

/-- Embeds `strings.Contains s sub`. -/
def strContains (s sub : String) : Bool :=
  listContainsSub sub.toList s.toList

/-- Embeds `strings.Split` on a single separator character, over the character
list of the string: every occurrence splits, empty fields are kept, and
the empty input yields one empty field — exactly Go's behavior for a
one-character separator. -/
def splitChar (sep : Char) : List Char → List (List Char)
  | [] => [[]]
  | c :: cs =>
    if c == sep then [] :: splitChar sep cs
    else
      match splitChar sep cs with
      | [] => [[c]]
      | r :: rs => (c :: r) :: rs

/-- Embeds `extractToken` (`server/internal/gateway/middleware.go:68`): split the
`Authorization` header on spaces; require exactly two parts with a
case-insensitive `Bearer` scheme (`strings.ToLower` on the ASCII scheme
word is character-wise lowering). -/
def extractToken (authHeader : String) : Option String :=
  if authHeader == "" then none
  else
    match splitChar ' ' authHeader.toList with
    | [scheme, tok] =>
      if scheme.map Char.toLower == "bearer".toList then some tok.asString else none
    | _ => none

/-- The observable outcome of the gateway `/api/*` handler:
proxied without claims (the login/register bypass), proxied with the
injected tenant and internal token, rejected with an HTTP status and
message, or a recovered panic (gin's `Recovery` turns the nil
`authClient` method call into a 500). -/
inductive GatewayOutcome where
  | proxiedPublic
  | proxiedAuthed (tenantID internalToken : String)
  | rejected (status : Nat) (msg : String)
  | recoveredPanic
deriving Repr, DecidableEq

/-- Gateway environment: the local in-process cache keyed by
`token:{token}:{tenant}`; the auth client (`none` models the `nil`
`AuthClient` that `main.go` passes, whose method call panics); and the
internal-token minting (`jwtManager.GenerateToken`, an external signing
call modelled as a total function of the claims). -/
structure GatewayEnv where
  localCache : List (String × GwClaims)
  authClient : Option (String → String → Option GwClaims)
  mint : GwClaims → String

/-- Embeds `AuthMiddleware` (`server/internal/gateway/middleware.go:32`) followed
by the proxy call of `main.go`: missing token ⇒ 401; local cache hit ⇒
inject and proxy; otherwise call the auth client — a `nil` client panics,
an error or `Valid == false` ⇒ 401, success ⇒ cache, inject and proxy. -/
def authMiddleware (env : GatewayEnv) (authHeader tenantHeader : String) :
    GatewayOutcome :=
  match extractToken authHeader with
  | none => GatewayOutcome.rejected 401 "Missing authorization token"
  | some token =>
    let cacheKey := "token:" ++ token ++ ":" ++ tenantHeader
    match (env.localCache.find? fun e => e.1 == cacheKey).map (·.2) with
    | some claims => GatewayOutcome.proxiedAuthed claims.tenantID (env.mint claims)
    | none =>
      match env.authClient with
      | none => GatewayOutcome.recoveredPanic
      | some validate =>
        match validate token tenantHeader with
        | none => GatewayOutcome.rejected 401 "Invalid token"
        | some resp =>
          if !resp.valid then GatewayOutcome.rejected 401 "Invalid token"
          else GatewayOutcome.proxiedAuthed resp.tenantID (env.mint resp)

/-- The `/api/*path` handler of `server/cmd/gateway/main.go:68`: `path` is
the wildcard parameter (the part after `/api`).  When the path contains
`/auth/login` or `/auth/register` as a substring, proxy with no
authentication; otherwise run the middleware. -/
def gatewayApiHandler (env : GatewayEnv) (path authHeader tenantHeader : String) :
    GatewayOutcome :=
  if strContains path "/auth/login" || strContains path "/auth/register" then
    GatewayOutcome.proxiedPublic
  else
    authMiddleware env authHeader tenantHeader

/-- Whether an operation returned `ok` (a non-error result). -/
def isOkE {ε α : Type} : Except ε α → Bool
  | Except.ok _ => true
  | Except.error _ => false

/-! ## Concrete fixtures used by witnesses and counterexamples -/

/-- A request environment in which every external call succeeds; the
password check is modelled as plain equality with the stored hash. -/
def exEnv (now : Nat) : Env :=
  { now := now, checkPassword := fun p h => p == h,
    freshAccessToken := some "acc1", freshRefreshToken := some "jwt1",
    redisAvailable := true, redisSetOk := true, refreshCreateOk := true }

def exUser : User :=
  { id := "u1", email := "a@b.c", username := "alice", phone := "555",
    docNumber := "d1", passwordHash := "pw", isActive := true }

def exUT : UserTenant :=
  { userID := "u1", tenantID := "T", roles := ["admin"], isActive := true }

/-- A tenant config with a 30-minute session timeout and a lockout policy
of 3 attempts / 15 minutes. -/
def exCfg : TenantLoginConfig :=
  { tenantID := "T", allowedIdentifiers := ["email", "username"],
    allowRegistration := true, passwordMinLength := 8, sessionTimeout := 30,
    maxLoginAttempts := 3, lockoutDuration := 15 }

def exRole : Role :=
  { name := "admin", tenantID := some "T", permissions := ["user.read", "user.write"] }

def exRT : RefreshTokenRec :=
  { userID := "u1", tenantID := "T", token := "r1", expiresAt := 700000, revokedAt := none }

def exStore : Store :=
  { users := [exUser], userTenants := [exUT], configs := [exCfg], roles := [exRole],
    refreshTokens := [exRT], sessions := [], lockouts := [] }

/-- An active lockout row for (u1, T) whose `unlockAt` is in the future of
`exEnv 1000`. -/
def exLockout : UserLockout :=
  { userID := "u1", tenantID := "T", lockedAt := 500, unlockAt := 999999,
    reason := "too many failed attempts", isActive := true }

/-- Embeds `exStore` with the active lockout row present. -/
def exStoreLocked : Store := { exStore with lockouts := [exLockout] }

/-- A gateway environment wired exactly as `main.go` wires it: empty local
cache and the `nil` auth client. -/
def exGwEnvNil : GatewayEnv :=
  { localCache := [], authClient := none, mint := fun _ => "internal" }

/-- A gateway environment with a working auth client that accepts only the
token `"good"`. -/
def exGwEnv : GatewayEnv :=
  { localCache := []
    authClient := some fun tok _ =>
      if tok == "good" then
        some { valid := true, userID := "u1", tenantID := "T", email := "a@b.c" }
      else none
    mint := fun _ => "internal" }

def exPermStore : PermStore :=
  { userTenants := [exUT], roles := [exRole], cache := some [] }

/-- The state produced by `refreshTokenOp (exEnv 1000) exStore "r1"`: a
new session and a new refresh row were written; the presented row `exRT`
is still there, unrevoked. -/
def exStoreAfterRefresh : Store :=
  { exStore with
    refreshTokens :=
      [{ userID := "u1", tenantID := "T", token := "jwt1", expiresAt := 605800,
         revokedAt := none }, exRT]
    sessions := [("session:acc1",
      { userID := "u1", tenantID := "T", email := "a@b.c", roles := ["admin"],
        createdAt := 1000, expiresAt := 87400 }, 86400)] }

/-! ## Helper lemmas -/

theorem exceptBind_ok {ε α β : Type} (a : α) (f : α → Except ε β) :
    (do let x ← Except.ok a; f x) = f a := rfl

theorem exceptBind_error {ε α β : Type} (e : ε) (f : α → Except ε β) :
    (do let x ← (Except.error e : Except ε α); f x) = Except.error e := rfl

theorem mem_dedupAcc (x : String) : ∀ (seen l : List String),
    x ∈ dedupAcc seen l ↔ x ∈ l ∧ ¬ x ∈ seen := by
  intro seen l
  induction l generalizing seen with
  | nil => simp [dedupAcc]
  | cons y ys ih =>
    by_cases hy : y ∈ seen
    · rw [show dedupAcc seen (y :: ys) = dedupAcc seen ys from by simp [dedupAcc, hy]]
      rw [ih]
      simp only [List.mem_cons]
      constructor
      · rintro ⟨hxs, hnot⟩
        exact ⟨Or.inr hxs, hnot⟩
      · rintro ⟨rfl | hxs, hnot⟩
        · exact absurd hy hnot
        · exact ⟨hxs, hnot⟩
    · rw [show dedupAcc seen (y :: ys) = y :: dedupAcc (y :: seen) ys from by
        simp [dedupAcc, hy]]
      simp only [List.mem_cons, ih]
      constructor
      · rintro (rfl | ⟨hxs, hnot⟩)
        · exact ⟨Or.inl rfl, hy⟩
        · exact ⟨Or.inr hxs, fun hs => hnot (Or.inr hs)⟩
      · rintro ⟨rfl | hxs, hnot⟩
        · exact Or.inl rfl
        · by_cases hxy : x = y
          · exact Or.inl hxy
          · exact Or.inr ⟨hxs, fun h => h.elim hxy hnot⟩

theorem nodup_dedupAcc : ∀ (seen l : List String), (dedupAcc seen l).Nodup := by
  intro seen l
  induction l generalizing seen with
  | nil => simp [dedupAcc]
  | cons y ys ih =>
    by_cases hy : y ∈ seen
    · rw [show dedupAcc seen (y :: ys) = dedupAcc seen ys from by simp [dedupAcc, hy]]
      exact ih seen
    · rw [show dedupAcc seen (y :: ys) = y :: dedupAcc (y :: seen) ys from by
        simp [dedupAcc, hy]]
      refine List.nodup_cons.mpr ⟨fun hmem => ?_, ih (y :: seen)⟩
      exact ((mem_dedupAcc y (y :: seen) ys).mp hmem).2 (List.mem_cons_self y seen)

theorem mem_removeDuplicates (x : String) (l : List String) :
    x ∈ removeDuplicates l ↔ x ∈ l := by
  simp [removeDuplicates, mem_dedupAcc]

theorem nodup_removeDuplicates (l : List String) : (removeDuplicates l).Nodup :=
  nodup_dedupAcc [] l

theorem mem_getPermissionsForRoles (p : String) (roles : List Role) (names : List String)
    (tenantID : String) :
    p ∈ getPermissionsForRoles roles names tenantID ↔
      ∃ r ∈ findRolesByNames roles names tenantID, p ∈ r.permissions := by
  simp [getPermissionsForRoles, mem_removeDuplicates, List.mem_flatMap]

/-! ## C7 and C10: the permission resolver -/

/-- C7: on a cache miss (no cache client, key absent, or an empty cached
value — the only cases that reach the database path), `GetUserPermissions`
returns the empty set when the membership row is missing or inactive, and
otherwise a duplicate-free list whose members are exactly the union of the
permissions of the roles matched for the membership's role names. -/
theorem getUserPermissions_empty_on_inactive_and_dedup_union
    (st : PermStore) (userID tenantID : String)
    (hmiss : ∀ l, cacheGet st.cache (permCacheKey userID tenantID) = some l → l = []) :
    ((findByUserAndTenant st.userTenants userID tenantID = none ∨
      (∃ ut, findByUserAndTenant st.userTenants userID tenantID = some ut ∧
        ut.isActive = false)) →
      (getUserPermissions st userID tenantID).1 = []) ∧
    (∀ ut, findByUserAndTenant st.userTenants userID tenantID = some ut →
      ut.isActive = true →
      ((getUserPermissions st userID tenantID).1.Nodup ∧
        ∀ p, p ∈ (getUserPermissions st userID tenantID).1 ↔
          ∃ r ∈ findRolesByNames st.roles ut.roles tenantID, p ∈ r.permissions)) := by
  have hhit :
      (match cacheGet st.cache (permCacheKey userID tenantID) with
        | some cached => if cached.length > 0 then some cached else none
        | none => none) = (none : Option (List String)) := by
    cases hc : cacheGet st.cache (permCacheKey userID tenantID) with
    | none => rfl
    | some l => simp [hmiss l hc]
  constructor
  · rintro (hnone | ⟨ut, hfind, hinact⟩)
    · simp [getUserPermissions, hhit, hnone]
    · simp [getUserPermissions, hhit, hfind, hinact]
  · intro ut hfind hact
    have hval : (getUserPermissions st userID tenantID).1 =
        removeDuplicates (getPermissionsForRoles st.roles ut.roles tenantID) := by
      simp [getUserPermissions, hhit, hfind, hact]
    rw [hval]
    exact ⟨nodup_removeDuplicates _, fun p => by
      rw [mem_removeDuplicates, mem_getPermissionsForRoles]⟩

/-- Witness for C7 at a concrete store: an inactive membership yields `[]`;
the active membership for (u1, T) yields a duplicate-free list containing
exactly the `admin` role's permissions. -/
theorem getUserPermissions_empty_on_inactive_and_dedup_union_witness :
    (getUserPermissions
      { userTenants := [{ userID := "u2", tenantID := "T", roles := ["admin"],
                          isActive := false }],
        roles := [exRole], cache := some [] } "u2" "T").1 = [] ∧
    ((getUserPermissions exPermStore "u1" "T").1.Nodup ∧
      ∀ p, p ∈ (getUserPermissions exPermStore "u1" "T").1 ↔
        ∃ r ∈ findRolesByNames exPermStore.roles exUT.roles "T", p ∈ r.permissions) := by
  constructor
  · exact (getUserPermissions_empty_on_inactive_and_dedup_union _ "u2" "T"
      (by intro l hl; simpa [cacheGet, permCacheKey] using hl)).1
      (Or.inr ⟨_, rfl, rfl⟩)
  · exact (getUserPermissions_empty_on_inactive_and_dedup_union exPermStore "u1" "T"
      (by intro l hl; simpa [exPermStore, cacheGet, permCacheKey] using hl)).2
      exUT rfl rfl

/-- C10: a cached empty permission list is treated as a miss — the result
is recomputed from the membership and role stores (it equals the pure
database path `permsFromDB`) — while a cached non-empty value is returned
as-is without touching the stores. -/
theorem getUserPermissions_empty_cache_entry_is_miss
    (st : PermStore) (userID tenantID : String) :
    (cacheGet st.cache (permCacheKey userID tenantID) = some [] →
      (getUserPermissions st userID tenantID).1 = permsFromDB st userID tenantID) ∧
    (∀ l, cacheGet st.cache (permCacheKey userID tenantID) = some l → l ≠ [] →
      (getUserPermissions st userID tenantID).1 = l) := by
  constructor
  · intro hc
    cases hfind : findByUserAndTenant st.userTenants userID tenantID with
    | none => simp [getUserPermissions, permsFromDB, hc, hfind]
    | some ut =>
      by_cases hact : ut.isActive = true
      · simp [getUserPermissions, permsFromDB, hc, hfind, hact]
      · simp only [Bool.not_eq_true] at hact
        simp [getUserPermissions, permsFromDB, hc, hfind, hact]
  · intro l hc hne
    have hlen : l.length > 0 := List.length_pos.mpr hne
    simp [getUserPermissions, hc, hlen]

/-- Witness for C10: with `[]` cached under the key for (u1, T), the
result is recomputed from the stores; with `["x"]` cached, the cached
value is served. -/
theorem getUserPermissions_empty_cache_entry_is_miss_witness :
    (getUserPermissions
        { userTenants := [exUT], roles := [exRole],
          cache := some [(permCacheKey "u1" "T", [])] } "u1" "T").1 =
      permsFromDB
        { userTenants := [exUT], roles := [exRole],
          cache := some [(permCacheKey "u1" "T", [])] } "u1" "T" ∧
    (getUserPermissions
        { userTenants := [exUT], roles := [exRole],
          cache := some [(permCacheKey "u1" "T", ["x"])] } "u1" "T").1 = ["x"] := by
  constructor
  · exact (getUserPermissions_empty_cache_entry_is_miss _ "u1" "T").1 (by rfl)
  · exact (getUserPermissions_empty_cache_entry_is_miss _ "u1" "T").2 ["x"] (by rfl)
      (by simp)

/-! ## C3: user-not-found vs bad-password -/

/-- C3: the failure `Login` returns when no user matches the identifier is
the very same error value — `Unauthorized` with message
`"Invalid credentials"` — as the failure returned when the user exists,
passes every earlier gate, and only the password check fails. -/
theorem login_not_found_same_error_as_bad_password
    (env : Env) (st : Store) (id1 pw1 id2 pw2 tenantID : String)
    (u : User) (ut : UserTenant) (ty : String)
    (hnf : findByIdentifier st.users id1 = none)
    (hu : findByIdentifier st.users id2 = some u)
    (hty : detectIdentifierType id2 u = some ty)
    (hallow : ty ∈ (findConfigByTenant st.configs tenantID).allowedIdentifiers)
    (hut : findByUserAndTenant st.userTenants u.id tenantID = some ut)
    (hutActive : ut.isActive = true)
    (huActive : u.isActive = true)
    (hpw : env.checkPassword pw2 u.passwordHash = false) :
    login env st id1 pw1 tenantID =
      Except.error (AppError.unauthorized "Invalid credentials") ∧
    login env st id2 pw2 tenantID =
      Except.error (AppError.unauthorized "Invalid credentials") := by
  constructor
  · simp [login, hnf, exceptBind_error, exceptBind_ok]
  · simp [login, hu, hty, hallow, hut, hutActive, huActive, hpw,
      exceptBind_error, exceptBind_ok]

/-- Witness for C3: `"ghost"` matches no user; `"alice"` exists but the
password is wrong; both calls produce the identical error. -/
theorem login_not_found_same_error_as_bad_password_witness :
    login (exEnv 1000) exStore "ghost" "pw" "T" =
      Except.error (AppError.unauthorized "Invalid credentials") ∧
    login (exEnv 1000) exStore "alice" "wrong" "T" =
      Except.error (AppError.unauthorized "Invalid credentials") :=
  login_not_found_same_error_as_bad_password (exEnv 1000) exStore
    "ghost" "pw" "alice" "wrong" "T" exUser exUT "username"
    rfl rfl rfl (by decide) rfl rfl rfl rfl

/-! ## C4: VerifyToken re-checks the user and the membership -/

/-- C4: for a stored, unexpired session, `VerifyToken` fails — returning
an error instead of claims — whenever the re-loaded user is missing or
inactive, or the re-loaded (user, tenant) membership is missing or
inactive. -/
theorem verifyToken_fails_on_stale_user_or_membership
    (env : Env) (st : Store) (token : String) (session : Session) (ttl : Nat)
    (havail : env.redisAvailable = true)
    (hsess : getSession st.sessions ("session:" ++ token) = some (session, ttl))
    (hunexp : ¬ session.expiresAt < env.now)
    (hbad :
      findUserByID st.users session.userID = none ∨
      (∃ u, findUserByID st.users session.userID = some u ∧ u.isActive = false) ∨
      findByUserAndTenant st.userTenants session.userID session.tenantID = none ∨
      (∃ ut, findByUserAndTenant st.userTenants session.userID session.tenantID = some ut ∧
        ut.isActive = false)) :
    ∃ e, (verifyToken env st token).1 = Except.error e := by
  rcases hbad with hnone | ⟨u, hu, hinact⟩ | hutnone | ⟨ut, hut, hutinact⟩
  · exact ⟨AppError.unauthorized "User not found",
      by simp [verifyToken, havail, hsess, hunexp, hnone]⟩
  · exact ⟨AppError.forbidden "User account is deactivated",
      by simp [verifyToken, havail, hsess, hunexp, hu, hinact]⟩
  · cases hu : findUserByID st.users session.userID with
    | none => exact ⟨AppError.unauthorized "User not found",
        by simp [verifyToken, havail, hsess, hunexp, hu]⟩
    | some u =>
      by_cases hua : u.isActive = true
      · exact ⟨AppError.forbidden "User does not have access to this tenant",
          by simp [verifyToken, havail, hsess, hunexp, hu, hua, hutnone]⟩
      · simp only [Bool.not_eq_true] at hua
        exact ⟨AppError.forbidden "User account is deactivated",
          by simp [verifyToken, havail, hsess, hunexp, hu, hua]⟩
  · cases hu : findUserByID st.users session.userID with
    | none => exact ⟨AppError.unauthorized "User not found",
        by simp [verifyToken, havail, hsess, hunexp, hu]⟩
    | some u =>
      by_cases hua : u.isActive = true
      · exact ⟨AppError.forbidden "User does not have access to this tenant",
          by simp [verifyToken, havail, hsess, hunexp, hu, hua, hut, hutinact]⟩
      · simp only [Bool.not_eq_true] at hua
        exact ⟨AppError.forbidden "User account is deactivated",
          by simp [verifyToken, havail, hsess, hunexp, hu, hua]⟩

/-- Witness for C4: a live session for a user whose membership row has
been deactivated; `VerifyToken` rejects it. -/
theorem verifyToken_fails_on_stale_user_or_membership_witness :
    ∃ e,
      (verifyToken (exEnv 1000)
        { users := [exUser]
          userTenants := [{ exUT with isActive := false }]
          configs := [exCfg], roles := [exRole], refreshTokens := []
          sessions := [("session:acc1",
            { userID := "u1", tenantID := "T", email := "a@b.c", roles := ["admin"],
              createdAt := 0, expiresAt := 90000 }, 86400)]
          lockouts := [] } "acc1").1 = Except.error e :=
  verifyToken_fails_on_stale_user_or_membership (exEnv 1000) _ "acc1"
    { userID := "u1", tenantID := "T", email := "a@b.c", roles := ["admin"],
      createdAt := 0, expiresAt := 90000 } 86400
    rfl rfl (by decide)
    (Or.inr (Or.inr (Or.inr ⟨{ exUT with isActive := false }, rfl, rfl⟩)))

/-! ## C6: session write fatal, refresh write non-fatal -/

/-- C6: during `generateTokens`, a failed session-store write aborts the
whole operation with the internal "Failed to create session" error and no
token pair, while a failed refresh-credential write still returns the full
token pair — with both tokens populated — and leaves the refresh-token
collection unchanged. -/
theorem generateTokens_session_fatal_refresh_nonfatal
    (env : Env) (st : Store) (user : User) (tenantID : String)
    (roles perms : List String) (acc rt : String)
    (hacc : env.freshAccessToken = some acc)
    (hrt : env.freshRefreshToken = some rt)
    (havail : env.redisAvailable = true) :
    (env.redisSetOk = false →
      generateTokens env st user tenantID roles perms =
        Except.error (AppError.internal "Failed to create session")) ∧
    (env.redisSetOk = true → env.refreshCreateOk = false →
      ∃ st', generateTokens env st user tenantID roles perms =
          Except.ok
            ({ accessToken := acc, refreshToken := rt, tokenType := "Bearer",
               expiresIn := 86400, userID := user.id, userEmail := user.email,
               userTenantID := tenantID, userRoles := roles }, st') ∧
        st'.refreshTokens = st.refreshTokens) := by
  constructor
  · intro hset
    simp [generateTokens, hacc, havail, hset, exceptBind_ok, exceptBind_error]
  · intro hset hcreate
    refine ⟨{ st with sessions :=
        ("session:" ++ acc,
         { userID := user.id, tenantID := tenantID, email := user.email,
           roles := roles, createdAt := env.now, expiresAt := env.now + 24 * 3600 },
         24 * 3600) :: st.sessions }, ?_, rfl⟩
    simp [generateTokens, hacc, hrt, havail, hset, hcreate,
      exceptBind_ok, exceptBind_error]

/-- Witness for C6: with the concrete environment, a failing Redis write
yields the internal error, and a failing refresh-row insert still yields
the complete pair with the refresh collection untouched. -/
theorem generateTokens_session_fatal_refresh_nonfatal_witness :
    generateTokens { exEnv 1000 with redisSetOk := false } exStore exUser "T"
        ["admin"] [] =
      Except.error (AppError.internal "Failed to create session") ∧
    ∃ st', generateTokens { exEnv 1000 with refreshCreateOk := false } exStore exUser "T"
          ["admin"] [] =
        Except.ok
          ({ accessToken := "acc1", refreshToken := "jwt1", tokenType := "Bearer",
             expiresIn := 86400, userID := exUser.id, userEmail := exUser.email,
             userTenantID := "T", userRoles := ["admin"] }, st') ∧
      st'.refreshTokens = exStore.refreshTokens :=
  ⟨(generateTokens_session_fatal_refresh_nonfatal
      { exEnv 1000 with redisSetOk := false } exStore exUser "T" ["admin"] []
      "acc1" "jwt1" rfl rfl rfl).1 rfl,
   (generateTokens_session_fatal_refresh_nonfatal
      { exEnv 1000 with refreshCreateOk := false } exStore exUser "T" ["admin"] []
      "acc1" "jwt1" rfl rfl rfl).2 rfl rfl⟩

/-! ## C5: session TTL -/

/-- C5 counterexample: tenant `T` configures a 30-minute session timeout
(`sessionTimeout = 30`), yet the session stored by a successful login is
written with a TTL of 86400 seconds and `expiresAt = now + 86400`; 86400
seconds is not the configured 30 minutes. -/
theorem login_session_ttl_ignores_tenant_config :
    (findConfigByTenant exStore.configs "T").sessionTimeout = 30 ∧
    (match login (exEnv 1000) exStore "alice" "pw" "T" with
      | Except.ok (_, st') => st'.sessions.map fun e => (e.1, e.2.2, e.2.1.expiresAt)
      | Except.error _ => []) = [("session:acc1", 86400, 87400)] ∧
    86400 ≠ 30 * 60 :=
  ⟨rfl, rfl, by decide⟩

/-- C5 (amended): whenever `generateTokens` succeeds with the session
store available, the session is stored with the fixed TTL of 24 hours
(86400 seconds) and `expiresAt = now + 24h`; the tenant's
`session_timeout_minutes` is never consulted. -/
theorem generateTokens_session_ttl_is_fixed_24h
    (env : Env) (st : Store) (user : User) (tenantID : String)
    (roles perms : List String) (resp : LoginResponse) (st' : Store)
    (h : generateTokens env st user tenantID roles perms = Except.ok (resp, st'))
    (havail : env.redisAvailable = true) :
    ∃ sess : Session,
      st'.sessions = ("session:" ++ resp.accessToken, sess, 24 * 3600) :: st.sessions ∧
      sess.expiresAt = env.now + 24 * 3600 ∧ sess.createdAt = env.now := by
  cases hacc : env.freshAccessToken with
  | none => simp [generateTokens, hacc, exceptBind_error] at h
  | some acc =>
    cases hset : env.redisSetOk with
    | false =>
      simp [generateTokens, hacc, havail, hset, exceptBind_ok, exceptBind_error] at h
    | true =>
      cases hrt : env.freshRefreshToken with
      | none =>
        simp [generateTokens, hacc, havail, hset, hrt,
          exceptBind_ok, exceptBind_error] at h
      | some rt =>
        cases hcr : env.refreshCreateOk with
        | false =>
          simp only [generateTokens, hacc, havail, hset, hrt, hcr,
            exceptBind_ok, exceptBind_error, if_true, if_false, Bool.false_eq_true,
            ite_true, ite_false, Except.ok.injEq, Prod.mk.injEq] at h
          obtain ⟨hresp, hst⟩ := h
          refine ⟨{ userID := user.id, tenantID := tenantID, email := user.email,
                    roles := roles, createdAt := env.now,
                    expiresAt := env.now + 24 * 3600 }, ?_, rfl, rfl⟩
          rw [← hst, ← hresp]
        | true =>
          simp only [generateTokens, hacc, havail, hset, hrt, hcr,
            exceptBind_ok, exceptBind_error, if_true, if_false, Bool.false_eq_true,
            ite_true, ite_false, Except.ok.injEq, Prod.mk.injEq] at h
          obtain ⟨hresp, hst⟩ := h
          refine ⟨{ userID := user.id, tenantID := tenantID, email := user.email,
                    roles := roles, createdAt := env.now,
                    expiresAt := env.now + 24 * 3600 }, ?_, rfl, rfl⟩
          rw [← hst, ← hresp]

/-- Witness for the amended C5 at the concrete login. -/
theorem generateTokens_session_ttl_is_fixed_24h_witness :
    ∃ sess : Session,
      (("session:acc1", sess, 24 * 3600) :: exStore.sessions) =
        ("session:acc1", sess, 24 * 3600) :: exStore.sessions ∧
      sess.expiresAt = 1000 + 24 * 3600 ∧ sess.createdAt = 1000 := by
  obtain ⟨sess, _, h2, h3⟩ :=
    generateTokens_session_ttl_is_fixed_24h (exEnv 1000) exStore exUser "T"
      ["admin"] [] _ _ rfl rfl
  exact ⟨sess, rfl, h2, h3⟩

/-! ## C8: AddUserToTenant on an existing row -/

/-- C8 counterexample: with an existing inactive membership row, a second
`AddUserToTenant` call replaces the roles but leaves `is_active = false`;
the row is not reactivated as the claim states. -/
theorem addUserToTenant_does_not_reactivate :
    (match addUserToTenant
        [{ userID := "u1", tenantID := "T", roles := ["a"], isActive := false }]
        "u1" "T" ["b"] with
      | Except.ok rows' => (findByUserAndTenant rows' "u1" "T").map
          fun r => (r.roles, r.isActive)
      | Except.error _ => none) = some (["b"], false) := rfl

theorem updateRolesRows_length (userID tenantID : String) (roles : List String) :
    ∀ rows : List UserTenant,
      (updateRolesRows userID tenantID roles rows).length = rows.length := by
  intro rows
  induction rows with
  | nil => rfl
  | cons r rs ih =>
    by_cases h : (r.userID == userID && r.tenantID == tenantID) = true <;>
      simp [updateRolesRows, h, ih]

theorem find_updateRolesRows (userID tenantID : String) (roles : List String)
    (rows : List UserTenant) (r0 : UserTenant)
    (hfind : findByUserAndTenant rows userID tenantID = some r0) :
    findByUserAndTenant (updateRolesRows userID tenantID roles rows) userID tenantID =
      some { r0 with roles := roles } := by
  induction rows with
  | nil => simp [findByUserAndTenant] at hfind
  | cons r rs ih =>
    by_cases h : (r.userID == userID && r.tenantID == tenantID) = true
    · have hr : r = r0 := by
        simpa [findByUserAndTenant, List.find?, h] using hfind
      subst hr
      simp [findByUserAndTenant, updateRolesRows, List.find?, h]
    · have hrest : findByUserAndTenant rs userID tenantID = some r0 := by
        simpa [findByUserAndTenant, List.find?, h] using hfind
      have := ih hrest
      simpa [findByUserAndTenant, updateRolesRows, List.find?, h] using this

/-- C8 (amended): when a membership row for (user, tenant) already exists,
`AddUserToTenant` performs an in-place update: it succeeds, creates no
second row (the row count is unchanged), and the row afterwards carries
the new roles with every other field — including `is_active` — unchanged;
an inactive row therefore stays inactive. -/
theorem addUserToTenant_updates_in_place_without_reactivation
    (rows : List UserTenant) (userID tenantID : String) (roles : List String)
    (r0 : UserTenant)
    (hfind : findByUserAndTenant rows userID tenantID = some r0) :
    addUserToTenant rows userID tenantID roles =
      Except.ok (updateRolesRows userID tenantID roles rows) ∧
    (updateRolesRows userID tenantID roles rows).length = rows.length ∧
    findByUserAndTenant (updateRolesRows userID tenantID roles rows) userID tenantID =
      some { r0 with roles := roles } := by
  refine ⟨?_, updateRolesRows_length userID tenantID roles rows,
    find_updateRolesRows userID tenantID roles rows r0 hfind⟩
  simp [addUserToTenant, updateRoles, hfind]

/-- Witness for the amended C8 on a concrete inactive row. -/
theorem addUserToTenant_updates_in_place_without_reactivation_witness :
    addUserToTenant
        [{ userID := "u1", tenantID := "T", roles := ["a"], isActive := false }]
        "u1" "T" ["b"] =
      Except.ok (updateRolesRows "u1" "T" ["b"]
        [{ userID := "u1", tenantID := "T", roles := ["a"], isActive := false }]) ∧
    (updateRolesRows "u1" "T" ["b"]
        [{ userID := "u1", tenantID := "T", roles := ["a"], isActive := false }]).length =
      ([{ userID := "u1", tenantID := "T", roles := ["a"], isActive := false }] :
        List UserTenant).length ∧
    findByUserAndTenant (updateRolesRows "u1" "T" ["b"]
        [{ userID := "u1", tenantID := "T", roles := ["a"], isActive := false }])
        "u1" "T" =
      some { userID := "u1", tenantID := "T", roles := ["b"], isActive := false } :=
  addUserToTenant_updates_in_place_without_reactivation
    [{ userID := "u1", tenantID := "T", roles := ["a"], isActive := false }]
    "u1" "T" ["b"]
    { userID := "u1", tenantID := "T", roles := ["a"], isActive := false } rfl

/-! ## C9: gateway authentication bypass -/

/-- C9 counterexample: the path `/docs/v1/auth/login-page` (under `/api`
this is `/api/docs/v1/auth/login-page`) is neither
`/api/{service}/auth/login` nor `/api/{service}/auth/register`: the
wildcard part of either endpoint has exactly three `/` separators (for a
slash-free `{service}` segment) and ends in `n`/`r`, while this path has
four separators and ends in `e`.  The claim requires a 401 here (no
Authorization header is present), yet the gateway proxies the request
with no authentication, because the bypass is a substring check. -/
theorem gateway_bypass_not_exact :
    gatewayApiHandler exGwEnvNil "/docs/v1/auth/login-page" "" "" =
      GatewayOutcome.proxiedPublic ∧
    "/docs/v1/auth/login-page".toList.count '/' = 4 ∧
    "/svc/auth/login".toList.count '/' = 3 ∧
    "/svc/auth/register".toList.count '/' = 3 :=
  ⟨rfl, by decide, by decide, by decide⟩

/-- C9 (amended): the gateway bypasses authentication for exactly those
`/api` paths that contain `/auth/login` or `/auth/register` as a
substring (a superset of the login and register endpoints); every other
`/api` path is rejected with 401 when the bearer token is missing, and
with 401 "Invalid token" when the auth client reports the token invalid. -/
theorem gateway_substring_bypass_and_401
    (env : GatewayEnv) (path authHeader tenantHeader : String) :
    ((strContains path "/auth/login" = true ∨ strContains path "/auth/register" = true) →
      gatewayApiHandler env path authHeader tenantHeader = GatewayOutcome.proxiedPublic) ∧
    (strContains path "/auth/login" = false →
      strContains path "/auth/register" = false →
      ((extractToken authHeader = none →
        gatewayApiHandler env path authHeader tenantHeader =
          GatewayOutcome.rejected 401 "Missing authorization token") ∧
       (∀ tok f, extractToken authHeader = some tok →
        (env.localCache.find? fun e => e.1 == "token:" ++ tok ++ ":" ++ tenantHeader) = none →
        env.authClient = some f →
        (f tok tenantHeader = none ∨ ∃ r, f tok tenantHeader = some r ∧ r.valid = false) →
        gatewayApiHandler env path authHeader tenantHeader =
          GatewayOutcome.rejected 401 "Invalid token"))) := by
  constructor
  · rintro (h | h) <;> simp [gatewayApiHandler, h]
  · intro h1 h2
    constructor
    · intro hmiss
      simp [gatewayApiHandler, authMiddleware, h1, h2, hmiss]
    · rintro tok f htok hcache hclient (hval | ⟨r, hr, hinvalid⟩)
      · simp [gatewayApiHandler, authMiddleware, h1, h2, htok, hcache, hclient, hval]
      · simp [gatewayApiHandler, authMiddleware, h1, h2, htok, hcache, hclient, hr, hinvalid]

/-- Witness for the amended C9: a bypassed path, a missing token, and an
invalid token, each at concrete inputs through the working client. -/
theorem gateway_substring_bypass_and_401_witness :
    gatewayApiHandler exGwEnv "/svc/auth/login" "" "" = GatewayOutcome.proxiedPublic ∧
    gatewayApiHandler exGwEnv "/svc/data" "" "" =
      GatewayOutcome.rejected 401 "Missing authorization token" ∧
    gatewayApiHandler exGwEnv "/svc/data" "Bearer bad" "T" =
      GatewayOutcome.rejected 401 "Invalid token" :=
  ⟨(gateway_substring_bypass_and_401 exGwEnv "/svc/auth/login" "" "").1 (Or.inl rfl),
   ((gateway_substring_bypass_and_401 exGwEnv "/svc/data" "" "").2 rfl rfl).1 rfl,
   ((gateway_substring_bypass_and_401 exGwEnv "/svc/data" "Bearer bad" "T").2 rfl rfl).2
     "bad"
     (fun tok _ =>
       if tok == "good" then
         some { valid := true, userID := "u1", tenantID := "T", email := "a@b.c" }
       else none)
     rfl rfl rfl (Or.inl rfl)⟩

/-! ## C2: lockout is not implemented -/

/-- C2 (code behavior at the failing input): with an active lockout row
for (u1, T) whose `unlock_at` is far in the future, and a tenant policy of
`max_login_attempts = 3`, `Login` still succeeds with the correct password
and returns the generic `Unauthorized "Invalid credentials"` — never a
`locked` failure — with the wrong one; the service neither consults nor
creates lockout rows and records no attempts (the source carries
`// TODO: Track failed login attempts`). -/
theorem login_ignores_lockout :
    exLockout.isActive = true ∧
    (exEnv 1000).now < exLockout.unlockAt ∧
    exCfg.maxLoginAttempts = 3 ∧
    (match login (exEnv 1000) exStoreLocked "alice" "pw" "T" with
      | Except.ok _ => true
      | Except.error _ => false) = true ∧
    login (exEnv 1000) exStoreLocked "alice" "wrong" "T" =
      Except.error (AppError.unauthorized "Invalid credentials") :=
  ⟨rfl, by decide, rfl, rfl, rfl⟩

/-! ## C1: refresh does not revoke the presented token -/

/-- C1 counterexample: with the valid refresh token `r1` in the store, the
first `RefreshToken("r1")` succeeds — and in the resulting state `r1` is
still unrevoked (its `revoked_at` is still nil) and a second
`RefreshToken("r1")` succeeds as well instead of failing with
unauthenticated. -/
theorem refreshToken_replay_not_rejected :
    isOkE (refreshTokenOp (exEnv 1000) exStore "r1") = true ∧
    refreshTokenOp (exEnv 1000) exStore "r1" =
      Except.ok
        ({ accessToken := "acc1", refreshToken := "jwt1", tokenType := "Bearer",
           expiresIn := 86400, userID := "u1", userEmail := "a@b.c",
           userTenantID := "T", userRoles := ["admin"] }, exStoreAfterRefresh) ∧
    (findRefreshByToken exStoreAfterRefresh.refreshTokens "r1" 1000).map
        RefreshTokenRec.revokedAt = some none ∧
    isOkE (refreshTokenOp (exEnv 1000) exStoreAfterRefresh "r1") = true :=
  ⟨rfl, rfl, rfl, rfl⟩

theorem generateTokens_ok_inv
    (env : Env) (st : Store) (user : User) (tenantID : String)
    (roles perms : List String) (resp : LoginResponse) (st' : Store)
    (h : generateTokens env st user tenantID roles perms = Except.ok (resp, st')) :
    st'.users = st.users ∧ st'.userTenants = st.userTenants ∧ st'.roles = st.roles ∧
    (st'.refreshTokens = st.refreshTokens ∨
      st'.refreshTokens =
        { userID := user.id, token := resp.refreshToken, tenantID := tenantID,
          expiresAt := env.now + 7 * 24 * 3600, revokedAt := none } ::
          st.refreshTokens) ∧
    env.freshAccessToken = some resp.accessToken ∧
    env.freshRefreshToken = some resp.refreshToken ∧
    (env.redisAvailable = true → env.redisSetOk = true) := by
  cases hacc : env.freshAccessToken with
  | none => simp [generateTokens, hacc, exceptBind_error] at h
  | some acc =>
  cases hrt : env.freshRefreshToken with
  | none =>
    cases hav : env.redisAvailable with
    | false =>
      simp [generateTokens, hacc, hav, hrt, exceptBind_ok, exceptBind_error] at h
    | true =>
      cases hset : env.redisSetOk with
      | false =>
        simp [generateTokens, hacc, hav, hset, exceptBind_ok, exceptBind_error] at h
      | true =>
        simp [generateTokens, hacc, hav, hset, hrt,
          exceptBind_ok, exceptBind_error] at h
  | some rt =>
  cases hav : env.redisAvailable with
  | false =>
    cases hcr : env.refreshCreateOk with
    | false =>
      simp only [generateTokens, hacc, hav, hrt, hcr, exceptBind_ok, exceptBind_error,
        Bool.false_eq_true, ite_true, ite_false, if_true, if_false,
        Except.ok.injEq, Prod.mk.injEq] at h
      obtain ⟨hresp, hst⟩ := h
      subst hresp; subst hst
      exact ⟨rfl, rfl, rfl, Or.inl rfl, rfl, rfl, fun hc => by simp at hc⟩
    | true =>
      simp only [generateTokens, hacc, hav, hrt, hcr, exceptBind_ok, exceptBind_error,
        Bool.false_eq_true, ite_true, ite_false, if_true, if_false,
        Except.ok.injEq, Prod.mk.injEq] at h
      obtain ⟨hresp, hst⟩ := h
      subst hresp; subst hst
      exact ⟨rfl, rfl, rfl, Or.inr rfl, rfl, rfl, fun hc => by simp at hc⟩
  | true =>
    cases hset : env.redisSetOk with
    | false =>
      simp [generateTokens, hacc, hav, hset, exceptBind_ok, exceptBind_error] at h
    | true =>
      cases hcr : env.refreshCreateOk with
      | false =>
        simp only [generateTokens, hacc, hav, hset, hrt, hcr,
          exceptBind_ok, exceptBind_error, Bool.false_eq_true, ite_true, ite_false,
          if_true, if_false, Except.ok.injEq, Prod.mk.injEq] at h
        obtain ⟨hresp, hst⟩ := h
        subst hresp; subst hst
        exact ⟨rfl, rfl, rfl, Or.inl rfl, rfl, rfl, fun _ => rfl⟩
      | true =>
        simp only [generateTokens, hacc, hav, hset, hrt, hcr,
          exceptBind_ok, exceptBind_error, Bool.false_eq_true, ite_true, ite_false,
          if_true, if_false, Except.ok.injEq, Prod.mk.injEq] at h
        obtain ⟨hresp, hst⟩ := h
        subst hresp; subst hst
        exact ⟨rfl, rfl, rfl, Or.inr rfl, rfl, rfl, fun _ => rfl⟩

theorem generateTokens_isOk_of_env
    (env : Env) (st : Store) (user : User) (tenantID : String)
    (roles perms : List String) (acc rt : String)
    (hacc : env.freshAccessToken = some acc)
    (hrt : env.freshRefreshToken = some rt)
    (hred : env.redisAvailable = true → env.redisSetOk = true) :
    isOkE (generateTokens env st user tenantID roles perms) = true := by
  cases hav : env.redisAvailable with
  | true =>
    have hset := hred hav
    cases hcr : env.refreshCreateOk <;>
      simp [generateTokens, hacc, hrt, hav, hset, hcr, isOkE,
        exceptBind_ok, exceptBind_error]
  | false =>
    cases hcr : env.refreshCreateOk <;>
      simp [generateTokens, hacc, hrt, hav, hcr, isOkE,
        exceptBind_ok, exceptBind_error]

/-- C1 (amended): a successful `RefreshToken(r)` does not revoke the
presented refresh credential: in the resulting state, `r` still passes the
repository's validity filter (unrevoked and unexpired), and a second
`RefreshToken(r)` in that state succeeds rather than failing with
unauthenticated.  (The unauthenticated failure occurs only when the
validity filter rejects the token: missing, revoked, or expired.) -/
theorem refreshTokenOp_replay_succeeds
    (env : Env) (st : Store) (r : String) (resp : LoginResponse) (st' : Store)
    (h : refreshTokenOp env st r = Except.ok (resp, st')) :
    (∃ row', findRefreshByToken st'.refreshTokens r env.now = some row') ∧
    isOkE (refreshTokenOp env st' r) = true := by
  cases hfind : findRefreshByToken st.refreshTokens r env.now with
  | none => simp [refreshTokenOp, hfind, exceptBind_error] at h
  | some row =>
    have hp : (row.token == r && (row.revokedAt == none &&
        decide (env.now < row.expiresAt))) = true := by
      have hfind' : st.refreshTokens.find?
          (fun x => x.token == r && x.revokedAt == none &&
            decide (env.now < x.expiresAt)) = some row := hfind
      simpa [Bool.and_assoc] using List.find?_some hfind'
    simp only [Bool.and_eq_true, beq_iff_eq, decide_eq_true_eq] at hp
    obtain ⟨htok, hrev, hlt⟩ := hp
    have hnexp : ¬ row.expiresAt < env.now := Nat.lt_asymm hlt
    simp only [refreshTokenOp, hfind, exceptBind_ok] at h
    rw [if_neg hnexp] at h
    cases huser : findUserByID st.users row.userID with
    | none => simp [huser, exceptBind_error] at h
    | some user =>
      have huid : user.id = row.userID := by
        have huser' : st.users.find? (fun u => u.id == row.userID) = some user := huser
        simpa using List.find?_some huser'
      cases hut : findByUserAndTenant st.userTenants row.userID row.tenantID with
      | none => simp [huser, hut, exceptBind_ok, exceptBind_error] at h
      | some ut =>
        cases hact : ut.isActive with
        | false => simp [huser, hut, hact, exceptBind_ok, exceptBind_error] at h
        | true =>
          simp only [huser, hut, hact, Bool.not_true, Bool.false_eq_true,
            ite_false, if_false, exceptBind_ok] at h
          obtain ⟨husers, huts, hroles, hrts, hacc, hrt, hred⟩ :=
            generateTokens_ok_inv env st user row.tenantID ut.roles _ resp st' h
          have hfind2 : ∃ row2,
              findRefreshByToken st'.refreshTokens r env.now = some row2 ∧
              row2.userID = row.userID ∧ row2.tenantID = row.tenantID := by
            rcases hrts with heq | heq
            · exact ⟨row, by rw [heq]; exact hfind, rfl, rfl⟩
            · by_cases hq : (resp.refreshToken == r) = true
              · have hlt' : env.now < env.now + 7 * 24 * 3600 := by omega
                have hres : findRefreshByToken st'.refreshTokens r env.now =
                    some { userID := user.id, tenantID := row.tenantID,
                           token := resp.refreshToken,
                           expiresAt := env.now + 7 * 24 * 3600,
                           revokedAt := none } := by
                  rw [heq]
                  simp [findRefreshByToken, List.find?, hq, hlt']
                exact ⟨_, hres, huid, rfl⟩
              · have hres : findRefreshByToken st'.refreshTokens r env.now =
                    findRefreshByToken st.refreshTokens r env.now := by
                  rw [heq]
                  simp [findRefreshByToken, List.find?, hq]
                exact ⟨row, by rw [hres]; exact hfind, rfl, rfl⟩
          obtain ⟨row2, hfind2, huid2, htid2⟩ := hfind2
          have hp2 : (row2.token == r && (row2.revokedAt == none &&
              decide (env.now < row2.expiresAt))) = true := by
            have hfind2' : st'.refreshTokens.find?
                (fun x => x.token == r && x.revokedAt == none &&
                  decide (env.now < x.expiresAt)) = some row2 := hfind2
            simpa [Bool.and_assoc] using List.find?_some hfind2'
          simp only [Bool.and_eq_true, beq_iff_eq, decide_eq_true_eq] at hp2
          obtain ⟨htok2, hrev2, hlt2⟩ := hp2
          have hnexp2 : ¬ row2.expiresAt < env.now := Nat.lt_asymm hlt2
          refine ⟨⟨row2, hfind2⟩, ?_⟩
          have huser2 : findUserByID st'.users row2.userID = some user := by
            rw [husers, huid2]; exact huser
          have hut2 : findByUserAndTenant st'.userTenants row2.userID row2.tenantID =
              some ut := by
            rw [huts, huid2, htid2]; exact hut
          simp only [refreshTokenOp, hfind2, exceptBind_ok]
          rw [if_neg hnexp2]
          simp only [huser2, hut2, hact, Bool.not_true, Bool.false_eq_true,
            ite_false, if_false, exceptBind_ok]
          exact generateTokens_isOk_of_env env st' user row2.tenantID ut.roles _
            resp.accessToken resp.refreshToken hacc hrt hred

/-- Witness for the amended C1 at the concrete store: the first refresh of
`r1` produced `exStoreAfterRefresh`, where `r1` is still valid and a
second refresh succeeds. -/
theorem refreshTokenOp_replay_succeeds_witness :
    (∃ row', findRefreshByToken exStoreAfterRefresh.refreshTokens "r1" 1000 =
      some row') ∧
    isOkE (refreshTokenOp (exEnv 1000) exStoreAfterRefresh "r1") = true :=
  refreshTokenOp_replay_succeeds (exEnv 1000) exStore "r1" _ exStoreAfterRefresh rfl

end AuthSvc


